import Mathlib

set_option maxHeartbeats 1000000

/-!
Shallow embedding of the audio response pipeline of `src/src/app/page.tsx`
(the `Home` component of Aaryan6/ai-debater): payload classification and
graph lifecycle (`handleAudioResponse`), teardown (`cleanup`), the
frequency-sampling loop (`animate`), playback toggling (`togglePlayback`)
and the element lifecycle listeners ("play", "pause", "ended").

Mutable refs and React state hooks become fields of `AppState`; each
operation is a pure function on `AppState`, additionally returning a trace
of the resource operations it performs so that ordering and at-most-once
release can be stated.  Fresh runtime identifiers (audio contexts, object
URLs, animation-frame handles, ...) are drawn from a counter `nextId`;
the ghost fields `liveContexts` and `liveUrls` record which device
contexts / object URLs have been created and not yet closed / revoked,
so that resource-exclusivity claims can be stated.
-/

/-- A binary payload tagged with a content type: the `Blob` handed to
`handleAudioResponse`. -/
structure Blob where
  type : String
  bytes : List Nat
deriving DecidableEq, Repr

/-- An object URL as returned by `URL.createObjectURL`: a fresh identifier
bound to the blob it was created from. -/
structure ObjURL where
  id : Nat
  blob : Blob
deriving DecidableEq, Repr

/-- The part of an `HTMLAudioElement` the pipeline reads and writes: its
`src` binding (`none` models an empty / cleared `src`) and its
`currentTime` position. -/
structure AudioElem where
  src : Option ObjURL
  currentTime : Nat
deriving DecidableEq, Repr

/-- An `AnalyserNode`: a runtime identifier plus its `fftSize`
(`page.tsx` sets `fftSize = 256` on creation). -/
structure Analyser where
  id : Nat
  fftSize : Nat
deriving DecidableEq, Repr

/-- `AnalyserNode.frequencyBinCount` is half the FFT size. -/
def frequencyBinCount (a : Analyser) : Nat := a.fftSize / 2

/-- Resource operations performed by the pipeline, recorded as a trace. -/
inductive Ev where
  | pauseElem
  | disconnectSource (id : Nat)
  | disconnectAnalyser (id : Nat)
  | closeContext (id : Nat)
  | cancelFrame (id : Nat)
  | revokeURL (id : Nat)
  | newContext (id : Nat)
  | newAnalyser (id : Nat)
  | createURL (id : Nat)
  | newSource (id : Nat)
  | connect (a b : Nat)
  | playRequest (src : Option ObjURL)
  | pauseRequest
deriving DecidableEq, Repr

/-- Events that release a resource (each must happen at most once per
resource): disconnecting the source node, disconnecting the analyser,
closing the device context, cancelling the pending animation frame,
revoking an object URL.  Pausing the element is not a release. -/
def Ev.isRelease : Ev → Bool
  | .disconnectSource _ => true
  | .disconnectAnalyser _ => true
  | .closeContext _ => true
  | .cancelFrame _ => true
  | .revokeURL _ => true
  | _ => false

/-- Teardown-phase events (the body of `cleanup`). -/
def Ev.isTeardown : Ev → Bool
  | .pauseElem => true
  | .disconnectSource _ => true
  | .disconnectAnalyser _ => true
  | .closeContext _ => true
  | .cancelFrame _ => true
  | _ => false

/-- URL-revocation events. -/
def Ev.isRevoke : Ev → Bool
  | .revokeURL _ => true
  | _ => false

/-- Construction-phase events (new context / analyser / URL / source node,
graph connections, and the initial play request). -/
def Ev.isBuild : Ev → Bool
  | .newContext _ => true
  | .newAnalyser _ => true
  | .createURL _ => true
  | .newSource _ => true
  | .connect _ _ => true
  | .playRequest _ => true
  | _ => false

/-- The component state: React state hooks (`audioData`, `isPlaying`) and
the mutable refs of `page.tsx` (lines 17-25), plus the id counter and the
ghost liveness sets described in the module docstring. -/
structure AppState where
  audioData : Option (List Nat)
  isPlaying : Bool
  audioContextRef : Option Nat
  analyserRef : Option Analyser
  audioSourceRef : Option Nat
  animationFrameRef : Option Nat
  audioRef : Option AudioElem
  currentAudioUrlRef : Option ObjURL
  nextId : Nat
  liveContexts : List Nat
  liveUrls : List Nat
deriving DecidableEq, Repr

/-- The state on mount: every ref `null`, `audioData` undefined,
`isPlaying` false. -/
def initState : AppState :=
  { audioData := none
    isPlaying := false
    audioContextRef := none
    analyserRef := none
    audioSourceRef := none
    animationFrameRef := none
    audioRef := none
    currentAudioUrlRef := none
    nextId := 0
    liveContexts := []
    liveUrls := [] }

/-- `cleanup` (page.tsx lines 91-116): pause the element but keep its
`src`; if a source node exists, disconnect it and null the ref; likewise
for the analyser; if a device context exists, await its close and null the
ref; if an animation frame is pending, cancel it and null the ref; finally
clear the published snapshot and the playing flag.  Every step is guarded
on its ref being non-null, so the function is total. -/
def cleanup (s : AppState) : AppState × List Ev :=
  let t1 : List Ev := if s.audioRef.isSome then [Ev.pauseElem] else []
  let t2 : List Ev := match s.audioSourceRef with
    | some i => [Ev.disconnectSource i]
    | none => []
  let s2 := { s with audioSourceRef := none }
  let t3 : List Ev := match s2.analyserRef with
    | some a => [Ev.disconnectAnalyser a.id]
    | none => []
  let s3 := { s2 with analyserRef := none }
  let t4 : List Ev := match s3.audioContextRef with
    | some c => [Ev.closeContext c]
    | none => []
  let s4 := { s3 with audioContextRef := none,
                      liveContexts := match s3.audioContextRef with
                        | some c => s3.liveContexts.erase c
                        | none => s3.liveContexts }
  let t5 : List Ev := match s4.animationFrameRef with
    | some f => [Ev.cancelFrame f]
    | none => []
  let s5 := { s4 with animationFrameRef := none, audioData := none, isPlaying := false }
  (s5, t1 ++ t2 ++ t3 ++ t4 ++ t5)

/-- `togglePlayback` (page.tsx lines 54-74): no element → return; playing →
only request a pause on the element (the state change happens later, in the
"pause" listener); not playing with a bound `src` → rewind to 0 and request
play; not playing with no `src` but a retained object URL → rebind `src`
from the URL and request play; otherwise nothing happens. -/
def togglePlayback (s : AppState) : AppState × List Ev :=
  match s.audioRef with
  | none => (s, [])
  | some elem =>
    if s.isPlaying then
      (s, [Ev.pauseRequest])
    else
      match elem.src with
      | some u =>
          ({ s with audioRef := some { elem with currentTime := 0 } },
           [Ev.playRequest (some u)])
      | none =>
          match s.currentAudioUrlRef with
          | some u =>
              ({ s with audioRef := some { elem with src := some u } },
               [Ev.playRequest (some u)])
          | none => (s, [])

/-- The `animate` loop body (page.tsx lines 146-153): if the analyser ref
is null, return; otherwise allocate a fresh array of `frequencyBinCount`
bytes, fill it with the analyser's current magnitudes (modelled by the
environment oracle `freq`), publish it as `audioData`, and schedule the
next tick, storing the new frame handle. -/
def animate (freq : Nat → Nat) (s : AppState) : AppState :=
  match s.analyserRef with
  | none => s
  | some a =>
      { s with audioData := some ((List.range (frequencyBinCount a)).map freq)
               animationFrameRef := some s.nextId
               nextId := s.nextId + 1 }

/-- The "play" listener (page.tsx lines 156-159): set `isPlaying` and start
the sampling loop. -/
def onPlaySignal (freq : Nat → Nat) (s : AppState) : AppState :=
  animate freq { s with isPlaying := true }

/-- The "pause" listener (page.tsx lines 161-168): clear `isPlaying`,
cancel any pending animation frame, clear the snapshot. -/
def onPauseSignal (s : AppState) : AppState :=
  { s with isPlaying := false, animationFrameRef := none, audioData := none }

/-- The "ended" listener (page.tsx lines 170-179): cancel any pending
animation frame, clear `isPlaying` and the snapshot; deliberately no
teardown, so the clip can be replayed. -/
def onEndedSignal (s : AppState) : AppState :=
  { s with animationFrameRef := none, isPlaying := false, audioData := none }

/-- A scheduler step for the sampling loop: a tick only fires while a
frame handle is stored (the handle is the cancellation token; `none` means
not scheduled), and then runs `animate`. -/
def tickStep (freq : Nat → Nat) (s : AppState) : AppState :=
  match s.animationFrameRef with
  | none => s
  | some _ => animate freq s

/-- The live-frame branch of `handleAudioResponse` (page.tsx lines 77-85):
decode the blob body into a byte array, publish it as `audioData`, set
`isPlaying`, return — no ref is touched. -/
def submitLive (b : Blob) (s : AppState) : AppState :=
  { s with audioData := some b.bytes, isPlaying := true }

/-- The construction phase of `handleAudioResponse` (page.tsx lines
125-143): create a new audio context and analyser (`fftSize = 256`),
create a new element and a fresh object URL for the blob, bind the URL as
the element's `src`, store it in `currentAudioUrlRef`, create the media
element source node and connect source → analyser → destination. -/
def buildGraph (blob : Blob) (s : AppState) : AppState × List Ev :=
  let ctxId := s.nextId
  let anaId := s.nextId + 1
  let urlId := s.nextId + 2
  let srcId := s.nextId + 3
  let url : ObjURL := { id := urlId, blob := blob }
  ({ s with audioContextRef := some ctxId
            analyserRef := some { id := anaId, fftSize := 256 }
            currentAudioUrlRef := some url
            audioRef := some { src := some url, currentTime := 0 }
            audioSourceRef := some srcId
            nextId := s.nextId + 4
            liveContexts := s.liveContexts ++ [ctxId]
            liveUrls := s.liveUrls ++ [urlId] },
   [Ev.newContext ctxId, Ev.newAnalyser anaId, Ev.createURL urlId,
    Ev.newSource srcId, Ev.connect srcId anaId, Ev.connect anaId ctxId])

/-- The playable-clip path of `handleAudioResponse` (page.tsx lines
90-190): run `cleanup` (awaiting the asynchronous context close), revoke
the previous object URL if any, build the new graph, then attempt
`audio.play()`.  `playResolves` models whether the environment resolves
the play request: on resolution the element's "play" listener runs
(`isPlaying := true`; `animate`); on rejection the catch block sets
`isPlaying := false` and clears the snapshot without tearing anything
down. -/
def submitClip (freq : Nat → Nat) (playResolves : Bool) (blob : Blob)
    (s : AppState) : AppState × List Ev :=
  let c := cleanup s
  let r : AppState × List Ev :=
    match c.1.currentAudioUrlRef with
    | some u => ({ c.1 with liveUrls := c.1.liveUrls.erase u.id }, [Ev.revokeURL u.id])
    | none => (c.1, [])
  let b := buildGraph blob r.1
  let s4 :=
    if playResolves then onPlaySignal freq b.1
    else { b.1 with isPlaying := false, audioData := none }
  (s4, c.2 ++ r.2 ++ (b.2 ++ [Ev.playRequest (buildGraph blob r.1).1.currentAudioUrlRef]))

/-- `handleAudioResponse` (page.tsx lines 76-191).  The payload parameter
is `Option Blob`: `none` models an absent (`null`/`undefined`) argument, on
which line 78 (`audioBlob.type`) raises a `TypeError` before the falsy
guard on line 88 is reached — the error is modelled as `Except.error`.
A present blob typed `application/octet-stream` takes the live-frame
branch; any other present blob (the `if (!audioBlob) return` guard is
false for every present blob, empty or not) takes the playable-clip
path. -/
def handleAudioResponse (freq : Nat → Nat) (playResolves : Bool)
    (payload : Option Blob) (s : AppState) : Except String (AppState × List Ev) :=
  match payload with
  | none => .error "TypeError: cannot read type of null"
  | some blob =>
    if blob.type = "application/octet-stream" then
      .ok (submitLive blob s, [])
    else
      .ok (submitClip freq playResolves blob s)

/-- N sequential playable-clip submissions, each tagged with whether its
initial play request resolves. -/
def runClips (freq : Nat → Nat) (calls : List (Blob × Bool)) (s : AppState) : AppState :=
  calls.foldl (fun st c => (submitClip freq c.2 c.1 st).1) s

/-- The liveness ghost fields track exactly the refs: the live device
contexts are the context ref's content, the live object URLs are the
retained URL's id.  Holds initially and is preserved by every clip
submission. -/
def RefLiveInv (s : AppState) : Prop :=
  s.liveContexts = s.audioContextRef.toList ∧
  s.liveUrls = (s.currentAudioUrlRef.map ObjURL.id).toList

/-- One externally triggered `handleAudioResponse` call as a state step:
on an exception the state is unchanged (the error is raised before any
mutation). -/
def submitStep (freq : Nat → Nat) (pr : Bool) (p : Option Blob)
    (s : AppState) : AppState :=
  match handleAudioResponse freq pr p s with
  | .ok r => r.1
  | .error _ => s

/-- States reachable from mount by the pipeline's atomic steps: payload
submissions (with either play outcome), toggle calls, element lifecycle
signals (which can only fire once an element exists), and sampling-loop
ticks.  The analyser magnitudes `freq` may differ at every step. -/
inductive Reachable : AppState → Prop where
  | init : Reachable initState
  | submit (freq : Nat → Nat) (pr : Bool) (p : Option Blob) {s : AppState} :
      Reachable s → Reachable (submitStep freq pr p s)
  | toggle {s : AppState} : Reachable s → Reachable (togglePlayback s).1
  | play (freq : Nat → Nat) {s : AppState} : Reachable s →
      s.audioRef.isSome = true → Reachable (onPlaySignal freq s)
  | pause {s : AppState} : Reachable s → s.audioRef.isSome = true →
      Reachable (onPauseSignal s)
  | ended {s : AppState} : Reachable s → s.audioRef.isSome = true →
      Reachable (onEndedSignal s)
  | tick (freq : Nat → Nat) {s : AppState} : Reachable s →
      Reachable (tickStep freq s)

/-- The inductive invariant behind the snapshot-liveness property: the
snapshot is present exactly while playing; an element implies an
analyser; a pending tick implies an analyser and playing status. -/
def ConsistentSnapshot (s : AppState) : Prop :=
  s.audioData.isSome = s.isPlaying ∧
  (s.audioRef.isSome = true → s.analyserRef.isSome = true) ∧
  (s.animationFrameRef.isSome = true →
     s.analyserRef.isSome = true ∧ s.isPlaying = true)

/-- C5 — Teardown idempotence: running `cleanup` twice from any state
yields the same state as running it once; the second run performs no
release operation at all, and the releases of a single run are pairwise
distinct (each resource is released at most once).  Every step of
`cleanup` is guarded, so the function is total on all states, including
partially-initialized ones. -/
theorem claim_C5 (s : AppState) :
    (cleanup (cleanup s).1).1 = (cleanup s).1 ∧
    ((cleanup (cleanup s).1).2.filter Ev.isRelease) = [] ∧
    (((cleanup s).2.filter Ev.isRelease).Nodup) := by
  rcases s with ⟨ad, ip, acr, anr, asr, afr, ar, cur, nid, lc, lu⟩
  refine ⟨?_, ?_, ?_⟩ <;>
    cases acr <;> cases anr <;> cases asr <;> cases afr <;> cases ar <;>
      simp [cleanup, Ev.isRelease]

/-- C2 (counterexample) — in the reachable state produced by a live-frame
payload, `isPlaying` is true but no element exists, so `togglePlayback`
performs no pause request at all (it returns before reaching the pause
call), contradicting the claim that a call while playing requests pause. -/
theorem claim_C2_counterexample :
    (let s : AppState :=
      { initState with audioData := some [10, 20, 30], isPlaying := true };
     s.isPlaying = true ∧ togglePlayback s = (s, [])) := by
  constructor
  · rfl
  · rfl

/-- C2 (amended) — `togglePlayback` behaves as claimed, but only once an
element exists: with no element the call is a no-op regardless of status.
With an element: playing → the call only emits a pause request and changes
no state (the Paused transition is the asynchronous "pause" signal);
not playing with a bound source → rewind to 0 and request play of that
source; not playing, no bound source, retained URL → rebind `src` from
the URL and request play; not playing with neither a bound source nor a
retained URL → no-op. -/
theorem claim_C2 (s : AppState) :
    (s.audioRef = none → togglePlayback s = (s, [])) ∧
    (∀ e, s.audioRef = some e → s.isPlaying = true →
      togglePlayback s = (s, [Ev.pauseRequest])) ∧
    (∀ e u, s.audioRef = some e → s.isPlaying = false → e.src = some u →
      togglePlayback s =
        ({ s with audioRef := some { e with currentTime := 0 } },
         [Ev.playRequest (some u)])) ∧
    (∀ e u, s.audioRef = some e → s.isPlaying = false → e.src = none →
      s.currentAudioUrlRef = some u →
      togglePlayback s =
        ({ s with audioRef := some { e with src := some u } },
         [Ev.playRequest (some u)])) ∧
    (∀ e, s.audioRef = some e → s.isPlaying = false → e.src = none →
      s.currentAudioUrlRef = none → togglePlayback s = (s, [])) := by
  refine ⟨?_, ?_, ?_, ?_, ?_⟩
  · intro h; simp [togglePlayback, h]
  · intro e he hp; simp [togglePlayback, he, hp]
  · intro e u he hp hs; simp [togglePlayback, he, hp, hs]
  · intro e u he hp hs hu; simp [togglePlayback, he, hp, hs, hu]
  · intro e he hp hs hu; simp [togglePlayback, he, hp, hs, hu]

/-- Witness for C2: each case of the amended claim discharged at a
concrete state. -/
theorem claim_C2_witness :
    (togglePlayback initState = (initState, [])) ∧
    (let sP : AppState :=
       { initState with isPlaying := true,
                        audioRef := some { src := none, currentTime := 5 } };
     togglePlayback sP = (sP, [Ev.pauseRequest])) ∧
    (let u : ObjURL := { id := 7, blob := { type := "audio/mpeg", bytes := [1] } };
     let e : AudioElem := { src := some u, currentTime := 5 };
     let sS : AppState := { initState with audioRef := some e };
     togglePlayback sS =
       ({ sS with audioRef := some { e with currentTime := 0 } },
        [Ev.playRequest (some u)])) ∧
    (let u : ObjURL := { id := 7, blob := { type := "audio/mpeg", bytes := [1] } };
     let e : AudioElem := { src := none, currentTime := 5 };
     let sR : AppState :=
       { initState with audioRef := some e, currentAudioUrlRef := some u };
     togglePlayback sR =
       ({ sR with audioRef := some { e with src := some u } },
        [Ev.playRequest (some u)])) ∧
    (let e : AudioElem := { src := none, currentTime := 5 };
     let sN : AppState := { initState with audioRef := some e };
     togglePlayback sN = (sN, [])) := by
  refine ⟨?_, ?_, ?_, ?_, ?_⟩
  · exact (claim_C2 initState).1 rfl
  · exact (claim_C2 _).2.1 _ rfl rfl
  · exact (claim_C2 _).2.2.1 _ _ rfl rfl rfl
  · exact (claim_C2 _).2.2.2.1 _ _ rfl rfl rfl rfl
  · exact (claim_C2 _).2.2.2.2 _ rfl rfl rfl rfl

/-- Bridging lemma: on a present non-octet-stream blob,
`handleAudioResponse` is exactly the playable-clip path. -/
theorem handleAudioResponse_clip (freq : Nat → Nat) (pr : Bool) (b : Blob)
    (s : AppState) (h : b.type ≠ "application/octet-stream") :
    handleAudioResponse freq pr (some b) s = .ok (submitClip freq pr b s) := by
  simp [handleAudioResponse, h]

/-- C9 — a live-frame (octet-stream) payload publishes its decoded bytes
as the snapshot and sets `isPlaying`, touching no graph resource: every
ref is unchanged, the trace is empty, and no exception occurs.  In
particular bytes `[10, 20, 30]` yield status Playing and snapshot
`[10, 20, 30]` with no graph constructed (see the witness, which runs the
scenario from the initial state). -/
theorem claim_C9 (freq : Nat → Nat) (pr : Bool) (b : Blob) (s : AppState)
    (h : b.type = "application/octet-stream") :
    ∃ s', handleAudioResponse freq pr (some b) s = .ok (s', []) ∧
      s'.audioData = some b.bytes ∧
      s'.isPlaying = true ∧
      s'.audioContextRef = s.audioContextRef ∧
      s'.analyserRef = s.analyserRef ∧
      s'.audioSourceRef = s.audioSourceRef ∧
      s'.animationFrameRef = s.animationFrameRef ∧
      s'.audioRef = s.audioRef ∧
      s'.currentAudioUrlRef = s.currentAudioUrlRef ∧
      s'.liveContexts = s.liveContexts ∧
      s'.liveUrls = s.liveUrls := by
  refine ⟨submitLive b s, ?_, by simp [submitLive], by simp [submitLive],
    rfl, rfl, rfl, rfl, rfl, rfl, rfl, rfl⟩
  simp [handleAudioResponse, h]

/-- Witness for C9: the concrete scenario from the spec, run from the
initial state. -/
theorem claim_C9_witness :
    ∃ s', handleAudioResponse (fun _ => 0) true
        (some { type := "application/octet-stream", bytes := [10, 20, 30] })
        initState = .ok (s', []) ∧
      s'.audioData = some [10, 20, 30] ∧
      s'.isPlaying = true ∧
      s'.audioContextRef = initState.audioContextRef ∧
      s'.analyserRef = initState.analyserRef ∧
      s'.audioSourceRef = initState.audioSourceRef ∧
      s'.animationFrameRef = initState.animationFrameRef ∧
      s'.audioRef = initState.audioRef ∧
      s'.currentAudioUrlRef = initState.currentAudioUrlRef ∧
      s'.liveContexts = initState.liveContexts ∧
      s'.liveUrls = initState.liveUrls :=
  claim_C9 (fun _ => 0) true _ initState rfl

/-- C4 (counterexample) — an empty (zero-byte) playable payload is not a
no-op: submitted from the initial state it constructs a graph (the
audio-context ref goes from `none` to `some`), contradicting the claim
that an empty payload changes no observable state. -/
theorem claim_C4_counterexample :
    ∃ s' t, handleAudioResponse (fun _ => 0) false
        (some { type := "audio/mpeg", bytes := [] }) initState = .ok (s', t) ∧
      initState.audioContextRef = none ∧
      s'.audioContextRef = some 0 := by
  exact ⟨_, _, rfl, rfl, rfl⟩

/-- C4 (amended) — the `if (!audioBlob) return` guard of line 88 is
unreachable as a no-op: every present blob is truthy, so an empty
(zero-byte) non-octet-stream payload is processed as a normal playable
clip (teardown and graph construction run, so state changes), and an
absent (`null`) payload raises a `TypeError` at line 78, before the
guard, instead of returning silently. -/
theorem claim_C4 (freq : Nat → Nat) (pr : Bool) (s : AppState) (b : Blob)
    (hty : b.type ≠ "application/octet-stream") (hb : b.bytes = []) :
    handleAudioResponse freq pr (some b) s = .ok (submitClip freq pr b s) ∧
    (submitClip freq pr b s).1.audioContextRef = some s.nextId ∧
    handleAudioResponse freq pr none s = .error "TypeError: cannot read type of null" := by
  refine ⟨handleAudioResponse_clip freq pr b s hty, ?_, rfl⟩
  rcases s with ⟨ad, ip, acr, anr, asr, afr, ar, cur, nid, lc, lu⟩
  cases cur <;> cases pr <;>
    simp [submitClip, buildGraph, cleanup, onPlaySignal, animate]

/-- Witness for C4: the amended claim at the empty blob from the initial
state. -/
theorem claim_C4_witness :
    handleAudioResponse (fun _ => 0) false
        (some { type := "audio/mpeg", bytes := [] }) initState =
      .ok (submitClip (fun _ => 0) false { type := "audio/mpeg", bytes := [] } initState) ∧
    (submitClip (fun _ => 0) false { type := "audio/mpeg", bytes := [] } initState).1.audioContextRef =
      some initState.nextId ∧
    handleAudioResponse (fun _ => 0) false none initState =
      .error "TypeError: cannot read type of null" :=
  claim_C4 (fun _ => 0) false initState _ (by decide) rfl

/-- C3 — a playable-clip payload whose initial play request is rejected:
no exception propagates (`handleAudioResponse` returns normally), status
is not-playing and the snapshot is cleared, but the freshly built graph
(context, analyser, source node) and the element with its bound source
survive, so a subsequent `togglePlayback` takes the bound-source branch
and requests play of the same clip. -/
theorem claim_C3 (freq : Nat → Nat) (b : Blob) (s : AppState)
    (h : b.type ≠ "application/octet-stream") :
    ∃ s' t, handleAudioResponse freq false (some b) s = .ok (s', t) ∧
      s'.isPlaying = false ∧
      s'.audioData = none ∧
      s'.audioContextRef.isSome = true ∧
      s'.analyserRef.isSome = true ∧
      s'.audioSourceRef.isSome = true ∧
      ∃ e u, s'.audioRef = some e ∧ e.src = some u ∧ u.blob = b ∧
        togglePlayback s' =
          ({ s' with audioRef := some { e with currentTime := 0 } },
           [Ev.playRequest (some u)]) := by
  rw [handleAudioResponse_clip freq false b s h]
  rcases s with ⟨ad, ip, acr, anr, asr, afr, ar, cur, nid, lc, lu⟩
  cases cur <;>
    exact ⟨_, _, rfl, rfl, rfl, rfl, rfl, rfl, _, _, rfl, rfl, rfl, rfl⟩

/-- Witness for C3: the rejected-autoplay scenario at a concrete clip from
the initial state. -/
theorem claim_C3_witness :
    ∃ s' t, handleAudioResponse (fun _ => 0) false
        (some { type := "audio/mpeg", bytes := [1, 2] }) initState = .ok (s', t) ∧
      s'.isPlaying = false ∧
      s'.audioData = none ∧
      s'.audioContextRef.isSome = true ∧
      s'.analyserRef.isSome = true ∧
      s'.audioSourceRef.isSome = true ∧
      ∃ e u, s'.audioRef = some e ∧ e.src = some u ∧
        u.blob = { type := "audio/mpeg", bytes := [1, 2] } ∧
        togglePlayback s' =
          ({ s' with audioRef := some { e with currentTime := 0 } },
           [Ev.playRequest (some u)]) :=
  claim_C3 (fun _ => 0) _ initState (by decide)

/-- C6 — after the "ended" signal the state is Paused, not Idle: the
pending sampling tick (which was live while playing) is cancelled and the
snapshot cleared, but no teardown runs — every graph ref, the element and
its bound source, and the liveness sets are untouched — so a single
`togglePlayback` afterwards rewinds to position 0 and requests play of
the very same clip, with no new payload submission. -/
theorem claim_C6 (freq : Nat → Nat) (blob : Blob) (s0 : AppState) :
    (let s := (submitClip freq true blob s0).1
     let s' := onEndedSignal s
     s.animationFrameRef.isSome = true ∧
     s'.isPlaying = false ∧
     s'.audioData = none ∧
     s'.animationFrameRef = none ∧
     s'.audioContextRef = s.audioContextRef ∧
     s'.analyserRef = s.analyserRef ∧
     s'.audioSourceRef = s.audioSourceRef ∧
     s'.audioRef = s.audioRef ∧
     s'.currentAudioUrlRef = s.currentAudioUrlRef ∧
     s'.liveContexts = s.liveContexts ∧
     s'.liveUrls = s.liveUrls ∧
     ∃ e u, s.audioRef = some e ∧ e.src = some u ∧ u.blob = blob ∧
       togglePlayback s' =
         ({ s' with audioRef := some { e with currentTime := 0 } },
          [Ev.playRequest (some u)])) := by
  rcases s0 with ⟨ad, ip, acr, anr, asr, afr, ar, cur, nid, lc, lu⟩
  cases cur <;>
    exact ⟨rfl, rfl, rfl, rfl, rfl, rfl, rfl, rfl, rfl, rfl, rfl,
      _, _, rfl, rfl, rfl, rfl⟩

/-- C10 — snapshot sizes: a sampler tick publishes a snapshot of exactly
`frequencyBinCount` = 128 bytes whenever the analyser has the fixed
`fftSize` of 256 (which every analyser built by the clip path has), while
the live-frame path publishes the payload's own bytes, whose length is the
payload's byte length — so snapshots do not share one fixed size across
the two delivery modes (a 3-byte live frame yields a 3-byte snapshot,
never 128).  Snapshots are immutable values in this embedding, matching
the code's freshly allocated, never-rewritten arrays. -/
theorem claim_C10 (freq : Nat → Nat) (pr : Bool) (blob : Blob)
    (s s1 : AppState) (a : Analyser)
    (ha : s1.analyserRef = some a) (hf : a.fftSize = 256) :
    (∃ l, (animate freq s1).audioData = some l ∧
       l.length = frequencyBinCount a ∧ l.length = 128) ∧
    (∀ a2, (submitClip freq pr blob s).1.analyserRef = some a2 → a2.fftSize = 256) ∧
    (∀ b2 s2, (submitLive b2 s2).audioData = some b2.bytes ∧
       (submitLive b2 s2).audioData.map List.length = some b2.bytes.length) ∧
    ((submitLive { type := "application/octet-stream", bytes := [10, 20, 30] }
        initState).audioData.map List.length ≠ some 128) := by
  refine ⟨⟨(List.range (frequencyBinCount a)).map freq, ?_, by simp, by simp [frequencyBinCount, hf]⟩,
    ?_, ?_, by simp [submitLive]⟩
  · simp [animate, ha]
  · rcases s with ⟨ad, ip, acr, anr, asr, afr, ar, cur, nid, lc, lu⟩
    cases cur <;> cases pr <;>
      simp [submitClip, buildGraph, cleanup, onPlaySignal, animate]
  · intro b2 s2; simp [submitLive]

/-- Witness for C10: discharged at a concrete state holding a freshly
built analyser. -/
theorem claim_C10_witness :
    (∃ l, (animate (fun _ => 0)
        { initState with analyserRef := some { id := 1, fftSize := 256 } }).audioData = some l ∧
       l.length = frequencyBinCount { id := 1, fftSize := 256 } ∧ l.length = 128) ∧
    (∀ a2, (submitClip (fun _ => 0) true { type := "audio/mpeg", bytes := [1] }
        initState).1.analyserRef = some a2 → a2.fftSize = 256) ∧
    (∀ b2 s2, (submitLive b2 s2).audioData = some b2.bytes ∧
       (submitLive b2 s2).audioData.map List.length = some b2.bytes.length) ∧
    ((submitLive { type := "application/octet-stream", bytes := [10, 20, 30] }
        initState).audioData.map List.length ≠ some 128) :=
  claim_C10 (fun _ => 0) true { type := "audio/mpeg", bytes := [1] }
    initState _ { id := 1, fftSize := 256 } rfl rfl

theorem refLiveInv_init : RefLiveInv initState := ⟨rfl, rfl⟩

/-- After one clip submission from a state satisfying `RefLiveInv`,
exactly the freshly created context and URL are live, the retained URL
wraps the submitted blob, and the element's source is bound to it. -/
theorem submitClip_live (freq : Nat → Nat) (pr : Bool) (blob : Blob)
    (s : AppState) (h : RefLiveInv s) :
    (submitClip freq pr blob s).1.liveContexts = [s.nextId] ∧
    (submitClip freq pr blob s).1.audioContextRef = some s.nextId ∧
    (submitClip freq pr blob s).1.liveUrls = [s.nextId + 2] ∧
    (submitClip freq pr blob s).1.currentAudioUrlRef =
      some { id := s.nextId + 2, blob := blob } ∧
    (submitClip freq pr blob s).1.audioRef =
      some { src := some { id := s.nextId + 2, blob := blob }, currentTime := 0 } := by
  obtain ⟨h1, h2⟩ := h
  rcases s with ⟨ad, ip, acr, anr, asr, afr, ar, cur, nid, lc, lu⟩
  simp only at h1 h2
  subst h1 h2
  cases acr <;> cases cur <;> cases pr <;>
    simp [submitClip, buildGraph, cleanup, onPlaySignal, animate]

/-- Folding any nonempty sequence of clip submissions from a
`RefLiveInv` state leaves exactly one live context and one live URL, the
latter wrapping the last submitted blob and bound as the element's
source. -/
theorem runClips_shape (freq : Nat → Nat) (calls : List (Blob × Bool))
    (s : AppState) (h : RefLiveInv s) (hne : calls ≠ []) :
    ∃ (n : Nat) (u : ObjURL),
      (runClips freq calls s).liveContexts = [n] ∧
      (runClips freq calls s).audioContextRef = some n ∧
      (runClips freq calls s).liveUrls = [u.id] ∧
      (runClips freq calls s).currentAudioUrlRef = some u ∧
      (runClips freq calls s).audioRef = some { src := some u, currentTime := 0 } ∧
      u.blob = (calls.getLast hne).1 := by
  induction calls generalizing s with
  | nil => exact absurd rfl hne
  | cons c rest ih =>
    have hstep := submitClip_live freq c.2 c.1 s h
    obtain ⟨hc1, hc2, hc3, hc4, hc5⟩ := hstep
    rcases rest with _ | ⟨c2, rest2⟩
    · refine ⟨s.nextId, { id := s.nextId + 2, blob := c.1 }, ?_, ?_, ?_, ?_, ?_, ?_⟩ <;>
        simp [runClips, hc1, hc2, hc3, hc4, hc5]
    · have hinv : RefLiveInv (submitClip freq c.2 c.1 s).1 := by
        constructor
        · rw [hc1, hc2]; rfl
        · rw [hc3, hc4]; rfl
      have hrest : (c2 :: rest2 : List (Blob × Bool)) ≠ [] := by simp
      obtain ⟨n, u, g1, g2, g3, g4, g5, g6⟩ :=
        ih (submitClip freq c.2 c.1 s).1 hinv hrest
      have hrun : runClips freq (c :: c2 :: rest2) s =
          runClips freq (c2 :: rest2) (submitClip freq c.2 c.1 s).1 := rfl
      have hlast : ((c :: c2 :: rest2 : List (Blob × Bool)).getLast hne) =
          ((c2 :: rest2 : List (Blob × Bool)).getLast hrest) := rfl
      refine ⟨n, u, ?_, ?_, ?_, ?_, ?_, ?_⟩
      · rw [hrun]; exact g1
      · rw [hrun]; exact g2
      · rw [hrun]; exact g3
      · rw [hrun]; exact g4
      · rw [hrun]; exact g5
      · rw [hlast]; exact g6

/-- Every event emitted by `cleanup` is a teardown event. -/
theorem cleanup_trace_teardown (s : AppState) :
    ∀ e ∈ (cleanup s).2, e.isTeardown = true := by
  rcases s with ⟨ad, ip, acr, anr, asr, afr, ar, cur, nid, lc, lu⟩
  cases acr <;> cases anr <;> cases asr <;> cases afr <;> cases ar <;>
    simp [cleanup, Ev.isTeardown]

/-- When a device context is open, `cleanup` closes it (the close is part
of the teardown trace). -/
theorem cleanup_trace_close (s : AppState) (c : Nat)
    (h : s.audioContextRef = some c) :
    Ev.closeContext c ∈ (cleanup s).2 := by
  rcases s with ⟨ad, ip, acr, anr, asr, afr, ar, cur, nid, lc, lu⟩
  simp only at h
  subst h
  cases anr <;> cases asr <;> cases afr <;> cases ar <;>
    simp [cleanup]

/-- The trace of one clip submission splits into a teardown phase, then a
revocation phase, then a construction phase: all resource releases of the
previous graph (including the awaited close of the previous device
context) happen before the previous object URL is revoked, and the
revocation happens before any new resource is created. -/
theorem submitClip_phases (freq : Nat → Nat) (pr : Bool) (blob : Blob)
    (s : AppState) :
    ∃ tT tR tB,
      (submitClip freq pr blob s).2 = tT ++ tR ++ tB ∧
      (∀ e ∈ tT, e.isTeardown = true) ∧
      (∀ e ∈ tR, e.isRevoke = true) ∧
      (∀ e ∈ tB, e.isBuild = true) ∧
      (∀ c, s.audioContextRef = some c → Ev.closeContext c ∈ tT) ∧
      (∀ u, s.currentAudioUrlRef = some u → Ev.revokeURL u.id ∈ tR) := by
  rcases s with ⟨ad, ip, acr, anr, asr, afr, ar, cur, nid, lc, lu⟩
  cases cur with
  | none =>
      exact ⟨_, [],
        [Ev.newContext nid, Ev.newAnalyser (nid + 1), Ev.createURL (nid + 2),
         Ev.newSource (nid + 3), Ev.connect (nid + 3) (nid + 1),
         Ev.connect (nid + 1) nid,
         Ev.playRequest (some { id := nid + 2, blob := blob })],
        rfl, cleanup_trace_teardown _, by simp, by simp [Ev.isBuild],
        fun c hc => cleanup_trace_close _ c hc, by simp⟩
  | some u =>
      exact ⟨_, [Ev.revokeURL u.id],
        [Ev.newContext nid, Ev.newAnalyser (nid + 1), Ev.createURL (nid + 2),
         Ev.newSource (nid + 3), Ev.connect (nid + 3) (nid + 1),
         Ev.connect (nid + 1) nid,
         Ev.playRequest (some { id := nid + 2, blob := blob })],
        rfl, cleanup_trace_teardown _, by simp [Ev.isRevoke], by simp [Ev.isBuild],
        fun c hc => cleanup_trace_close _ c hc,
        by intro u' hu'; simp at hu'; simp [hu']⟩

/-- C1 — sequential clip submissions: (1) any non-octet-stream payload is
routed by `handleAudioResponse` to the playable-clip path without error;
(2) within each such call, every teardown step (disconnecting the source
and analyser, awaiting the close of the previous device context) precedes
the revocation of the previous object URL, which precedes every
construction step (new context, analyser, URL, source node, connections,
play request); (3) after any nonempty sequence of N such calls from the
initial state, exactly one device context and exactly one object URL are
live, and the element's source is bound to the URL of clip N. -/
theorem claim_C1 (freq : Nat → Nat) (calls : List (Blob × Bool))
    (hne : calls ≠ []) :
    (∀ (b : Blob) (pr : Bool) (s : AppState),
       b.type ≠ "application/octet-stream" →
       handleAudioResponse freq pr (some b) s = .ok (submitClip freq pr b s)) ∧
    (∀ (pr : Bool) (b : Blob) (s : AppState), ∃ tT tR tB,
       (submitClip freq pr b s).2 = tT ++ tR ++ tB ∧
       (∀ e ∈ tT, e.isTeardown = true) ∧
       (∀ e ∈ tR, e.isRevoke = true) ∧
       (∀ e ∈ tB, e.isBuild = true) ∧
       (∀ c, s.audioContextRef = some c → Ev.closeContext c ∈ tT) ∧
       (∀ u, s.currentAudioUrlRef = some u → Ev.revokeURL u.id ∈ tR)) ∧
    (∃ (n : Nat) (u : ObjURL),
       (runClips freq calls initState).liveContexts = [n] ∧
       (runClips freq calls initState).audioContextRef = some n ∧
       (runClips freq calls initState).liveUrls = [u.id] ∧
       (runClips freq calls initState).currentAudioUrlRef = some u ∧
       (runClips freq calls initState).audioRef =
         some { src := some u, currentTime := 0 } ∧
       u.blob = (calls.getLast hne).1) :=
  ⟨fun b pr s h => handleAudioResponse_clip freq pr b s h,
   fun pr b s => submitClip_phases freq pr b s,
   runClips_shape freq calls initState refLiveInv_init hne⟩

/-- Witness for C1: two concrete clip submissions (the first resolving,
the second rejected); afterwards exactly one context and one URL are
live and the source is bound to the second blob. -/
theorem claim_C1_witness :
    (∀ (b : Blob) (pr : Bool) (s : AppState),
       b.type ≠ "application/octet-stream" →
       handleAudioResponse (fun _ => 0) pr (some b) s =
         .ok (submitClip (fun _ => 0) pr b s)) ∧
    (∀ (pr : Bool) (b : Blob) (s : AppState), ∃ tT tR tB,
       (submitClip (fun _ => 0) pr b s).2 = tT ++ tR ++ tB ∧
       (∀ e ∈ tT, e.isTeardown = true) ∧
       (∀ e ∈ tR, e.isRevoke = true) ∧
       (∀ e ∈ tB, e.isBuild = true) ∧
       (∀ c, s.audioContextRef = some c → Ev.closeContext c ∈ tT) ∧
       (∀ u, s.currentAudioUrlRef = some u → Ev.revokeURL u.id ∈ tR)) ∧
    (∃ (n : Nat) (u : ObjURL),
       (runClips (fun _ => 0)
         [({ type := "audio/mpeg", bytes := [1] }, true),
          ({ type := "audio/wav", bytes := [2, 3] }, false)]
         initState).liveContexts = [n] ∧
       (runClips (fun _ => 0)
         [({ type := "audio/mpeg", bytes := [1] }, true),
          ({ type := "audio/wav", bytes := [2, 3] }, false)]
         initState).audioContextRef = some n ∧
       (runClips (fun _ => 0)
         [({ type := "audio/mpeg", bytes := [1] }, true),
          ({ type := "audio/wav", bytes := [2, 3] }, false)]
         initState).liveUrls = [u.id] ∧
       (runClips (fun _ => 0)
         [({ type := "audio/mpeg", bytes := [1] }, true),
          ({ type := "audio/wav", bytes := [2, 3] }, false)]
         initState).currentAudioUrlRef = some u ∧
       (runClips (fun _ => 0)
         [({ type := "audio/mpeg", bytes := [1] }, true),
          ({ type := "audio/wav", bytes := [2, 3] }, false)]
         initState).audioRef = some { src := some u, currentTime := 0 } ∧
       u.blob = { type := "audio/wav", bytes := [2, 3] }) := by
  have h := claim_C1 (fun _ => 0)
    [({ type := "audio/mpeg", bytes := [1] }, true),
     ({ type := "audio/wav", bytes := [2, 3] }, false)] (by simp)
  obtain ⟨n, u, g1, g2, g3, g4, g5, g6⟩ := h.2.2
  exact ⟨h.1, h.2.1, n, u, g1, g2, g3, g4, g5, g6⟩

/-- `togglePlayback` never changes the pending-tick handle. -/
theorem togglePlayback_frame (s : AppState) :
    (togglePlayback s).1.animationFrameRef = s.animationFrameRef := by
  rcases s with ⟨ad, ip, acr, anr, asr, afr, ar, cur, nid, lc, lu⟩
  rcases ar with _ | ⟨esrc, ect⟩
  · rfl
  · cases ip <;> cases esrc <;> cases cur <;> rfl

theorem togglePlayback_consistent (s : AppState) (h : ConsistentSnapshot s) :
    ConsistentSnapshot (togglePlayback s).1 := by
  obtain ⟨h1, h2, h3⟩ := h
  rcases s with ⟨ad, ip, acr, anr, asr, afr, ar, cur, nid, lc, lu⟩
  rcases ar with _ | ⟨esrc, ect⟩
  · exact ⟨h1, h2, h3⟩
  · cases ip <;> cases esrc <;> cases cur <;>
      exact ⟨h1, fun _ => h2 rfl, h3⟩

theorem onPause_consistent (s : AppState) (h : ConsistentSnapshot s) :
    ConsistentSnapshot (onPauseSignal s) := by
  obtain ⟨h1, h2, h3⟩ := h
  exact ⟨rfl, h2, fun hf => Bool.noConfusion hf⟩

theorem onEnded_consistent (s : AppState) (h : ConsistentSnapshot s) :
    ConsistentSnapshot (onEndedSignal s) := by
  obtain ⟨h1, h2, h3⟩ := h
  exact ⟨rfl, h2, fun hf => Bool.noConfusion hf⟩

theorem onPlay_consistent (freq : Nat → Nat) (s : AppState)
    (h : ConsistentSnapshot s) (he : s.audioRef.isSome = true) :
    ConsistentSnapshot (onPlaySignal freq s) := by
  obtain ⟨h1, h2, h3⟩ := h
  have ha := h2 he
  rcases hs : s.analyserRef with _ | a
  · rw [hs] at ha; exact Bool.noConfusion ha
  · simp [ConsistentSnapshot, onPlaySignal, animate, hs]

theorem tick_consistent (freq : Nat → Nat) (s : AppState)
    (h : ConsistentSnapshot s) : ConsistentSnapshot (tickStep freq s) := by
  obtain ⟨h1, h2, h3⟩ := h
  rcases hf : s.animationFrameRef with _ | fid
  · rw [tickStep, hf]; exact ⟨h1, h2, h3⟩
  · obtain ⟨ha, hp⟩ := h3 (by rw [hf]; rfl)
    rcases hs : s.analyserRef with _ | a
    · rw [hs] at ha; exact Bool.noConfusion ha
    · rw [tickStep, hf]
      simp [ConsistentSnapshot, animate, hs, hp, h2]

theorem submit_consistent (freq : Nat → Nat) (pr : Bool) (p : Option Blob)
    (s : AppState) (h : ConsistentSnapshot s) :
    ConsistentSnapshot (submitStep freq pr p s) := by
  obtain ⟨h1, h2, h3⟩ := h
  cases p with
  | none => exact ⟨h1, h2, h3⟩
  | some b =>
    by_cases hb : b.type = "application/octet-stream"
    · have hred : submitStep freq pr (some b) s = submitLive b s := by
        simp [submitStep, handleAudioResponse, hb]
      rw [hred]
      exact ⟨rfl, h2, fun hf => ⟨(h3 hf).1, rfl⟩⟩
    · have hred : submitStep freq pr (some b) s = (submitClip freq pr b s).1 := by
        simp [submitStep, handleAudioResponse, hb]
      rw [hred]
      rcases s with ⟨ad, ip, acr, anr, asr, afr, ar, cur, nid, lc, lu⟩
      cases cur <;> cases pr <;>
        simp [ConsistentSnapshot, submitClip, cleanup, buildGraph,
          onPlaySignal, animate]

/-- Every reachable state satisfies the snapshot-liveness invariant. -/
theorem reachable_consistent (s : AppState) (h : Reachable s) :
    ConsistentSnapshot s := by
  induction h with
  | init =>
      exact ⟨rfl, fun hh => Bool.noConfusion hh, fun hh => Bool.noConfusion hh⟩
  | submit freq pr p _ ih => exact submit_consistent freq pr p _ ih
  | toggle _ ih => exact togglePlayback_consistent _ ih
  | play freq _ he ih => exact onPlay_consistent freq _ ih he
  | pause _ _ ih => exact onPause_consistent _ ih
  | ended _ _ ih => exact onEnded_consistent _ ih
  | tick freq _ ih => exact tick_consistent freq _ ih

/-- C7 — snapshot liveness: in every reachable state the published
snapshot is non-absent exactly when status is Playing.  The invariant
holds immediately after each atomic step (payload submission, toggle,
start/pause/end signal, sampling tick), which in particular gives the
claimed "within one scheduling tick after any signal". -/
theorem claim_C7 (s : AppState) (h : Reachable s) :
    s.audioData.isSome = s.isPlaying :=
  (reachable_consistent s h).1

/-- Witness for C7: the state reached by submitting a live-frame payload
from mount. -/
theorem claim_C7_witness :
    (submitStep (fun _ => 0) true
      (some { type := "application/octet-stream", bytes := [10, 20, 30] })
      initState).audioData.isSome =
    (submitStep (fun _ => 0) true
      (some { type := "application/octet-stream", bytes := [10, 20, 30] })
      initState).isPlaying :=
  claim_C7 _ (Reachable.submit (fun _ => 0) true _ Reachable.init)

/-- C8 — sampling-loop cancellation: the pause and ended listeners and
`cleanup` all null the stored pending-tick handle (the cancellation
token); with the handle absent a scheduler tick does nothing (no
snapshot is published and nothing is rescheduled, so a stale tick never
fires), and no operation other than a "play" signal — toggling, a
live-frame submission, a clip submission whose play request is rejected —
creates a pending tick; a "play" signal on an element with a live
analyser restarts the loop by storing a fresh handle. -/
theorem claim_C8 (freq : Nat → Nat) (b : Blob) (s : AppState) :
    ((onPauseSignal s).animationFrameRef = none ∧
     (onEndedSignal s).animationFrameRef = none ∧
     (cleanup s).1.animationFrameRef = none) ∧
    (s.animationFrameRef = none →
      tickStep freq s = s ∧
      (togglePlayback s).1.animationFrameRef = none ∧
      (submitLive b s).animationFrameRef = none ∧
      (submitClip freq false b s).1.animationFrameRef = none ∧
      (submitStep freq false (some b) s).animationFrameRef = none) ∧
    (s.audioRef.isSome = true → s.analyserRef.isSome = true →
      (onPlaySignal freq s).animationFrameRef.isSome = true) := by
  have hclip : (submitClip freq false b s).1.animationFrameRef = none := by
    rcases s with ⟨ad, ip, acr, anr, asr, afr, ar, cur, nid, lc, lu⟩
    cases cur <;> rfl
  refine ⟨⟨rfl, rfl, rfl⟩, fun hf => ⟨?_, ?_, ?_, hclip, ?_⟩, fun he ha => ?_⟩
  · rw [tickStep, hf]
  · rw [togglePlayback_frame]; exact hf
  · exact hf
  · by_cases hb : b.type = "application/octet-stream"
    · have hred : submitStep freq false (some b) s = submitLive b s := by
        simp [submitStep, handleAudioResponse, hb]
      rw [hred]; exact hf
    · have hred : submitStep freq false (some b) s = (submitClip freq false b s).1 := by
        simp [submitStep, handleAudioResponse, hb]
      rw [hred]; exact hclip
  · rcases hs : s.analyserRef with _ | a
    · rw [hs] at ha; exact Bool.noConfusion ha
    · simp [onPlaySignal, animate, hs]

/-- Witness for C8: cancellation facts at the initial state, and loop
restart at a concrete state holding an element and an analyser. -/
theorem claim_C8_witness :
    ((onPauseSignal initState).animationFrameRef = none ∧
     (onEndedSignal initState).animationFrameRef = none ∧
     (cleanup initState).1.animationFrameRef = none) ∧
    (tickStep (fun _ => 0) initState = initState ∧
     (togglePlayback initState).1.animationFrameRef = none ∧
     (submitLive { type := "audio/mpeg", bytes := [1] } initState).animationFrameRef = none ∧
     (submitClip (fun _ => 0) false { type := "audio/mpeg", bytes := [1] }
        initState).1.animationFrameRef = none ∧
     (submitStep (fun _ => 0) false (some { type := "audio/mpeg", bytes := [1] })
        initState).animationFrameRef = none) ∧
    ((onPlaySignal (fun _ => 0)
        { initState with audioRef := some { src := none, currentTime := 0 },
                         analyserRef := some { id := 1, fftSize := 256 } }
       ).animationFrameRef.isSome = true) := by
  have h := claim_C8 (fun _ => 0) { type := "audio/mpeg", bytes := [1] } initState
  exact ⟨h.1, h.2.1 rfl,
    (claim_C8 (fun _ => 0) { type := "audio/mpeg", bytes := [1] }
      { initState with audioRef := some { src := none, currentTime := 0 },
                       analyserRef := some { id := 1, fftSize := 256 } }).2.2 rfl rfl⟩
